import Mathlib

/-!
Shallow embedding of the `rag_web_app` admin front-end service layer and of the
access-control core described by the specification.

Browser `localStorage` is modelled as a record of optional entries; a stored
JSON user object is modelled as a record of optional fields (a missing field is
`none`, matching an absent JS object property).  HTTP calls are modelled by
passing the server's response in as data and returning the request that would
be issued together with the result, so that the pure decision logic of each
service function is captured exactly.
-/

namespace RagWeb

/-- A parsed `user` object from `localStorage` (all JS fields optional). -/
structure StoredUser where
  id : Option Nat := none
  name : Option String := none
  username : Option String := none
  role : Option String := none
  departmentId : Option Nat := none
  departmentName : Option String := none
  isSuperAdminProxy : Option Bool := none
  originalRole : Option String := none
  deriving Repr, DecidableEq

/-- The `localStorage` entries the admin app uses. -/
structure LocalStorage where
  token : Option String := none
  user : Option StoredUser := none
  isAuthenticated : Option String := none
  superAdminUser : Option StoredUser := none
  deriving Repr, DecidableEq

/-- JS truthiness of `user.isSuperAdminProxy` (absent field is falsy). -/
def jsTruthyBool : Option Bool → Bool
  | some b => b
  | none => false

/-- JS truthiness of a numeric field such as `user.departmentId`
(absent is falsy, and the number `0` is falsy as well). -/
def jsTruthyNat : Option Nat → Bool
  | some n => n != 0
  | none => false

/-! ### permissions.js -/

/-- `ROLES.SUPER_ADMIN` from `services/utils/permissions.js`. -/
def ROLES.SUPER_ADMIN : String := "SUPER_ADMIN"

/-- `ROLES.ADMIN` from `services/utils/permissions.js`. -/
def ROLES.ADMIN : String := "ADMIN"

/-- The `roleHierarchy` lookup of `checkPermission`:
`SUPER_ADMIN` maps to 2, `ADMIN` to 1, and `roleHierarchy[r] || 0` yields 0
for every other key. -/
def roleHierarchy (r : String) : Nat :=
  if r = "SUPER_ADMIN" then 2 else if r = "ADMIN" then 1 else 0

/-- `roleHierarchy[user.role] || 0` when `user.role` may be absent. -/
def roleLevelOpt : Option String → Nat
  | some r => roleHierarchy r
  | none => 0

/-- Result shape of `checkPermission`. -/
structure PermResult where
  hasPermission : Bool
  message : Option String := none
  deriving Repr, DecidableEq

/-- `checkPermission(requiredRole)` from `services/utils/permissions.js`:
no stored user yields a "未登入" failure; otherwise the user's role level
must reach the required role's level. -/
def checkPermission (store : LocalStorage) (requiredRole : String) : PermResult :=
  match store.user with
  | none => { hasPermission := false, message := some "未登入" }
  | some user =>
    let userLevel := roleLevelOpt user.role
    let requiredLevel := roleHierarchy requiredRole
    if userLevel ≥ requiredLevel then
      { hasPermission := true }
    else
      { hasPermission := false, message := some "權限不足，此操作需要更高權限" }

/-! ### getAuthHeader (identical in files.js, batchUpload.js, queryUsers.js) -/

/-- The headers built by `getAuthHeader`: always an `Authorization` bearer
header, plus an optional `X-Proxy-Department-Id` header. -/
structure AuthHeaders where
  authorization : String
  xProxyDepartmentId : Option String := none
  deriving Repr, DecidableEq

/-- `getAuthHeader` from the service modules: the bearer token header, and the
`X-Proxy-Department-Id` header exactly when the stored user object is present
with truthy `isSuperAdminProxy` and truthy (non-null, non-zero)
`departmentId`; its value is `departmentId.toString()`.
`localStorage.getItem('token')` stringifies to "null" when absent. -/
def getAuthHeader (store : LocalStorage) : AuthHeaders :=
  let headers : AuthHeaders :=
    { authorization := "Bearer " ++ store.token.getD "null" }
  match store.user with
  | none => headers
  | some user =>
    if jsTruthyBool user.isSuperAdminProxy && jsTruthyNat user.departmentId then
      { headers with
        xProxyDepartmentId := some (toString (user.departmentId.getD 0)) }
    else
      headers

/-! ### apiClient.js -/

/-- The subset of `fetch` options the client manipulates: the `cache` option
(absent unless the caller set one) and the request headers, modelled as an
association list in JS-object key order. -/
structure FetchOptions where
  cache : Option String := none
  headers : List (String × String) := []
  deriving Repr, DecidableEq

/-- Key lookup in a JS-object-like header list. -/
def headerLookup (hs : List (String × String)) (k : String) : Option String :=
  (hs.find? (fun p => p.1 == k)).map (fun p => p.2)

/-- The header object `{'Pragma': 'no-cache', 'Cache-Control': 'no-cache',
...finalOptions.headers}`: a default entry survives only when the caller did
not supply that key; caller entries are kept unchanged. -/
def mergeNoCacheHeaders (callerHeaders : List (String × String)) : List (String × String) :=
  ([("Pragma", "no-cache"), ("Cache-Control", "no-cache")].filter
    (fun p => (headerLookup callerHeaders p.1).isNone)) ++ callerHeaders

/-- A fetch `Response` (status plus an opaque body). -/
structure HttpResponse where
  status : Nat
  body : String := ""
  deriving Repr, DecidableEq

/-- `handleTokenExpired` from `apiClient.js`: removes `token`, `user`,
`isAuthenticated` and `superAdminUser` (the redirect it then performs is
outside the state modelled here). -/
def handleTokenExpired (store : LocalStorage) : LocalStorage :=
  { store with token := none, user := none, isAuthenticated := none, superAdminUser := none }

/-- Outcome of one `apiFetch` call: the final options passed to `fetch`, the
value returned or error thrown, and the resulting `localStorage`. -/
structure ApiFetchOutcome where
  request : FetchOptions
  result : Except String HttpResponse
  store : LocalStorage

/-- `apiFetch(url, options)` from `apiClient.js`, with the server's response
passed in as data: defaults `cache` to `'no-store'` only when the caller set
none, merges no-cache headers under the caller's, and on a 401 response clears
credentials and throws instead of returning the response. -/
def apiFetch (store : LocalStorage) (options : FetchOptions) (resp : HttpResponse) :
    ApiFetchOutcome :=
  let finalCache := match options.cache with
    | none => some "no-store"
    | some c => some c
  let finalOptions : FetchOptions :=
    { cache := finalCache, headers := mergeNoCacheHeaders options.headers }
  if resp.status = 401 then
    { request := finalOptions,
      result := Except.error "登入已過期，請重新登入",
      store := handleTokenExpired store }
  else
    { request := finalOptions, result := Except.ok resp, store := store }

/-! ### batchUpload.js -/

/-- The server response to `POST /upload/batch` (`taskId`/`message` on
success, `detail` on failure). -/
structure UploadServerResponse where
  ok : Bool
  taskId : Option String := none
  message : Option String := none
  detail : Option String := none
  deriving Repr, DecidableEq

/-- The `data` object of a successful `batchUpload` result. -/
structure BatchUploadData where
  taskId : Option String := none
  message : String
  deriving Repr, DecidableEq

/-- The result object `batchUpload` resolves with. -/
structure BatchUploadResult where
  success : Bool
  data : Option BatchUploadData := none
  message : Option String := none
  deriving Repr, DecidableEq

/-- A `batchUpload` run: the result plus whether the HTTP upload request was
issued at all. -/
structure BatchUploadOutcome where
  result : BatchUploadResult
  requestIssued : Bool
  deriving Repr, DecidableEq

/-- `batchUpload(uploadData)` from `batchUpload.js`: checks
`checkPermission(ROLES.ADMIN)` first and returns its failure message without
any HTTP request when it fails; otherwise issues the request and maps an `ok`
response to `success: true` with the response's `taskId`. -/
def batchUpload (store : LocalStorage) (resp : UploadServerResponse) : BatchUploadOutcome :=
  let permission := checkPermission store ROLES.ADMIN
  if !permission.hasPermission then
    { result := { success := false, message := permission.message },
      requestIssued := false }
  else if resp.ok then
    { result := { success := true,
                  data := some ({ taskId := resp.taskId,
                                  message := resp.message.getD "上傳任務已建立，開始處理檔案" } : BatchUploadData) },
      requestIssued := true }
  else
    { result := { success := false, message := some (resp.detail.getD "建立上傳任務失敗") },
      requestIssued := true }

/-! ### checkDuplicates (batchUpload.js) -/

/-- An entry of the candidate file list `[{ name, size, type }]`. -/
structure CandidateFile where
  name : String
  size : Nat := 0
  mimeType : String := ""
  deriving Repr, DecidableEq

/-- One classification row of the check-duplicates response. -/
structure DupRow where
  fileName : String := ""
  isDuplicate : Bool := false
  duplicateFileId : Option Nat := none
  relatedFileIds : List Nat := []
  suggestReplace : Bool := false
  deriving Repr, DecidableEq

/-- The server response to `POST /upload/check-duplicates`. -/
structure DupServerResponse where
  ok : Bool
  results : Option (List DupRow) := none
  detail : Option String := none
  deriving Repr, DecidableEq

/-- A `checkDuplicates` run: the request body's `filenames` array and the
resolved result. -/
structure CheckDuplicatesOutcome where
  sentFilenames : List String
  success : Bool
  data : List DupRow := []
  message : Option String := none
  deriving Repr, DecidableEq

/-- `checkDuplicates(fileList)` from `batchUpload.js`: posts
`{ filenames: fileList.map(f => f.name) }` and on an `ok` response resolves
with `data.results || []` unchanged. -/
def checkDuplicates (fileList : List CandidateFile) (resp : DupServerResponse) :
    CheckDuplicatesOutcome :=
  let sent := fileList.map (fun f => f.name)
  if resp.ok then
    { sentFilenames := sent, success := true, data := resp.results.getD [] }
  else
    { sentFilenames := sent, success := false,
      message := some (resp.detail.getD "檢查重複檔案失敗") }

/-! ### QueryUserPermissions.jsx -/

/-- A row of the user's current permission list (only `file_id` matters to the
grant picker's filter). -/
structure PermissionItem where
  file_id : Nat
  is_public : Bool := false
  deriving Repr, DecidableEq

/-- A file entry inside an available-files category. -/
structure AvailFile where
  id : Nat
  name : String := ""
  deriving Repr, DecidableEq

/-- A category group returned by `getAvailableFilesForPermissions`. -/
structure AvailCategory where
  category_id : Nat
  category : String := ""
  files : List AvailFile
  deriving Repr, DecidableEq

/-- The filtering step of `loadAvailableFiles` in `QueryUserPermissions.jsx`:
drops every file whose id is in the already-granted set, then drops categories
left with no files. -/
def loadAvailableFilesFilter (permissions : List PermissionItem)
    (categories : List AvailCategory) : List AvailCategory :=
  let permittedFileIds := permissions.map (fun p => p.file_id)
  (categories.map (fun category =>
      { category with
        files := category.files.filter (fun file => !(permittedFileIds.contains file.id)) })).filter
    (fun category => category.files.length > 0)

/-! ### departments.js deleteDepartment -/

/-- An admin user row as mapped by `getUsersByDepartment`. -/
structure DeptUser where
  id : Nat
  name : String := ""
  deriving Repr, DecidableEq

/-- Result shape shared by the service calls (`{ success, message? }`). -/
structure ApiResult where
  success : Bool
  message : Option String := none
  deriving Repr, DecidableEq

/-- The HTTP-visible events `deleteDepartment` can emit, in order. -/
inductive DelEvent where
  | delUser (id : Nat)
  | delDept
  deriving Repr, DecidableEq

/-- The environment of one `deleteDepartment` call: the users actually
belonging to the department, whether the `getUsersByDepartment` call succeeds
(returning exactly those users), each `deleteUser` call's result, and the
department DELETE outcome. -/
structure DeleteEnv where
  deptUsers : List DeptUser
  fetchOk : Bool
  deleteUserRes : Nat → ApiResult
  deptDeleteOk : Bool
  deptMessage : Option String := none
  deptErrorDetail : Option String := none

/-- The `for (const user of usersResult.data)` loop of `deleteDepartment`:
deletes users in order, stopping at the first failure; returns the failing
user (with its result) if any, and the `deleteUser` events issued. -/
def deleteUsersLoop (res : Nat → ApiResult) : List DeptUser → Option (DeptUser × ApiResult) × List DelEvent
  | [] => (none, [])
  | u :: us =>
    if (res u.id).success then
      let rest := deleteUsersLoop res us
      (rest.1, DelEvent.delUser u.id :: rest.2)
    else
      (some (u, res u.id), [DelEvent.delUser u.id])

/-- `deleteDepartment(departmentId)` from `departments.js`: SUPER_ADMIN
permission gate, then `getUsersByDepartment`; when that succeeds with a
non-empty list, every user is deleted first and any failure aborts with an
error before the department DELETE; otherwise (empty list, or a failed user
fetch) the department DELETE is issued directly. -/
def deleteDepartment (store : LocalStorage) (env : DeleteEnv) : ApiResult × List DelEvent :=
  let permission := checkPermission store ROLES.SUPER_ADMIN
  if !permission.hasPermission then
    ({ success := false, message := permission.message }, [])
  else
    let usersResult : Option (List DeptUser) := if env.fetchOk then some env.deptUsers else none
    let usersToDelete := match usersResult with
      | some users => if users.length > 0 then users else []
      | none => []
    match deleteUsersLoop env.deleteUserRes usersToDelete with
    | (some failed, evs) =>
      ({ success := false,
         message := some ("刪除處室失敗：無法刪除使用者「" ++ failed.1.name ++ "」 - "
           ++ (failed.2.message.getD "undefined")) }, evs)
    | (none, evs) =>
      if env.deptDeleteOk then
        ({ success := true, message := some (env.deptMessage.getD "處室刪除成功") },
         evs ++ [DelEvent.delDept])
      else
        ({ success := false, message := some (env.deptErrorDetail.getD "刪除處室失敗") },
         evs ++ [DelEvent.delDept])

/-! ### Impersonation (DepartmentManagement.jsx / Navbar) -/

/-- A department row as used by `enterDepartmentDashboard`. -/
structure Department where
  id : Nat
  name : String
  deriving Repr, DecidableEq

/-- `enterDepartmentDashboard(dept)`: on first entry (no saved
`superAdminUser`) stores a pure super-admin snapshot of the current user (id,
name, username, role SUPER_ADMIN; explicitly no department fields); then
replaces the stored `user` with a temporary ADMIN identity for `dept` that
keeps the original id and username, marks `isSuperAdminProxy`, and records
`_originalRole` (here `originalRole`) as SUPER_ADMIN. The token entry is not
touched. -/
def enterDepartmentDashboard (store : LocalStorage) (dept : Department) : LocalStorage :=
  let currentUser := store.user.getD {}
  let store1 :=
    match store.superAdminUser with
    | some _ => store
    | none =>
      { store with
        superAdminUser := some ({ id := currentUser.id, name := currentUser.name,
                                  username := currentUser.username,
                                  role := some "SUPER_ADMIN" } : StoredUser) }
  let tempUser : StoredUser :=
    { id := currentUser.id,
      username := currentUser.username,
      name := some (dept.name ++ " 管理員 (系統管理員代理)"),
      role := some "ADMIN",
      departmentId := some dept.id,
      departmentName := some dept.name,
      isSuperAdminProxy := some true,
      originalRole := some "SUPER_ADMIN" }
  { store1 with user := some tempUser }

/-- `returnToSuperAdmin` from the navbar: when a `superAdminUser` snapshot is
saved, it becomes the stored `user` unchanged and the snapshot entry is
removed; otherwise nothing happens. -/
def returnToSuperAdmin (store : LocalStorage) : LocalStorage :=
  match store.superAdminUser with
  | none => store
  | some superAdminUser =>
    { store with user := some superAdminUser, superAdminUser := none }

/-- Iterated `enterDepartmentDashboard` over a list of departments. -/
def enterDepartmentDashboardMany (store : LocalStorage) : List Department → LocalStorage
  | [] => store
  | d :: ds => enterDepartmentDashboardMany (enterDepartmentDashboard store d) ds

/-! ### Access Control Resolver (backend, modelled from the spec) -/

/-- Modelled from the spec: the backend `KnowledgeFile` row (the Access
Control Resolver's implementation is not among the sources under `src/`,
which hold only the front-end service layer). Spec §3: id, is_public (bool,
default false); other columns are irrelevant to `canRead`. -/
structure KnowledgeFile where
  id : Nat
  is_public : Bool := false
  deriving Repr, DecidableEq

/-- Modelled from the spec: a backend `FilePermission` row, keyed by the
(query_user_id, file_id) pair (spec §3). -/
structure FilePermissionRow where
  query_user_id : Nat
  file_id : Nat
  deriving Repr, DecidableEq

/-- Modelled from the spec: the Access Control Resolver's
`canRead(query_user_id, file_id) -> bool` (spec §4.3): true iff
`file.is_public` OR a FilePermission row exists for the pair, evaluated
against the current permission table. -/
def canRead (perms : List FilePermissionRow) (queryUserId : Nat) (file : KnowledgeFile) : Bool :=
  file.is_public || perms.any (fun p => p.query_user_id == queryUserId && p.file_id == file.id)

/-! ## Theorems -/

/-- C1: `canRead(U, F)` is true iff `F.is_public` or a FilePermission row
exists for the pair (U, F); once `is_public` is true every query user can read
F regardless of grant rows, and with `is_public` back to false access is
decided by the explicit grant rows alone, without re-granting. -/
theorem c1_canRead (perms : List FilePermissionRow) (qu : Nat) (f : KnowledgeFile) :
    (canRead perms qu f = true ↔
      f.is_public = true ∨ ∃ p ∈ perms, p.query_user_id = qu ∧ p.file_id = f.id)
    ∧ (f.is_public = true → ∀ perms2 qu2, canRead perms2 qu2 f = true)
    ∧ (canRead perms qu { f with is_public := false } = true ↔
        ∃ p ∈ perms, p.query_user_id = qu ∧ p.file_id = f.id) := by
  refine ⟨?_, ?_, ?_⟩
  · simp [canRead, List.any_eq_true]
  · intro hpub perms2 qu2
    simp [canRead, hpub]
  · simp [canRead, List.any_eq_true]

/-- C1 witness: a public file is readable by a user with no grant row. -/
theorem c1_canRead_witness :
    canRead [] 42 ({ id := 5, is_public := true } : KnowledgeFile) = true :=
  (c1_canRead [] 42 { id := 5, is_public := true }).2.1 rfl [] 42

/-- C2: the grant picker's available list contains no already-granted file and
no category whose file list is empty after the exclusion. -/
theorem c2_loadAvailableFilesFilter (permissions : List PermissionItem)
    (categories : List AvailCategory) :
    ∀ c ∈ loadAvailableFilesFilter permissions categories,
      (∀ f ∈ c.files, ∀ p ∈ permissions, p.file_id ≠ f.id) ∧ c.files ≠ [] := by
  intro c hc
  unfold loadAvailableFilesFilter at hc
  simp only [List.mem_filter, gt_iff_lt, decide_eq_true_eq] at hc
  obtain ⟨hmem, hlen⟩ := hc
  refine ⟨?_, List.length_pos.mp hlen⟩
  intro f hf p hp he
  obtain ⟨c0, _, rfl⟩ := List.mem_map.mp hmem
  simp only [List.mem_filter] at hf
  have h2 : f.id ∉ permissions.map fun p => p.file_id := by simpa using hf.2
  exact h2 (List.mem_map.mpr ⟨p, hp, he⟩)

/-- C2 witness: with file 1 granted, category A keeps only file 2 and the
emptied category B is dropped. -/
theorem c2_witness :
    loadAvailableFilesFilter [{ file_id := 1 }]
        [{ category_id := 10, category := "A",
           files := [{ id := 1, name := "a" }, { id := 2, name := "b" }] },
         { category_id := 11, category := "B", files := [{ id := 1, name := "a" }] }]
      = [{ category_id := 10, category := "A", files := [{ id := 2, name := "b" }] }] ∧
    (∀ f ∈ ({ category_id := 10, category := "A",
              files := [{ id := 2, name := "b" }] } : AvailCategory).files,
      ∀ p ∈ [({ file_id := 1 } : PermissionItem)], p.file_id ≠ f.id) := by
  refine ⟨by decide, ?_⟩
  have h := c2_loadAvailableFilesFilter [{ file_id := 1 }]
    [{ category_id := 10, category := "A",
       files := [{ id := 1, name := "a" }, { id := 2, name := "b" }] },
     { category_id := 11, category := "B", files := [{ id := 1, name := "a" }] }]
  exact (h { category_id := 10, category := "A", files := [{ id := 2, name := "b" }] }
    (by decide)).1

/-- C9: `checkPermission` is total and monotone in the role hierarchy: with a
stored user it grants iff the user's role level reaches the required level; a
SUPER_ADMIN user passes every check an ADMIN user passes; a missing user or an
unrecognized role never passes an ADMIN-level check and gets a failure
message. -/
theorem c9_checkPermission (store : LocalStorage) (requiredRole : String) :
    (∀ u, store.user = some u →
      ((checkPermission store requiredRole).hasPermission = true ↔
        roleHierarchy requiredRole ≤ roleLevelOpt u.role))
    ∧ (store.user = none →
        (checkPermission store requiredRole).hasPermission = false ∧
          (checkPermission store requiredRole).message = some "未登入")
    ∧ (∀ sA sS uA uS, sA.user = some uA → uA.role = some "ADMIN" →
        sS.user = some uS → uS.role = some "SUPER_ADMIN" →
        (checkPermission sA requiredRole).hasPermission = true →
        (checkPermission sS requiredRole).hasPermission = true)
    ∧ (∀ u r, store.user = some u → u.role = some r →
        r ≠ "SUPER_ADMIN" → r ≠ "ADMIN" →
        (checkPermission store ROLES.ADMIN).hasPermission = false ∧
          (checkPermission store ROLES.ADMIN).message =
            some "權限不足，此操作需要更高權限") := by
  refine ⟨?_, ?_, ?_, ?_⟩
  · intro u hu
    by_cases h : roleHierarchy requiredRole ≤ roleLevelOpt u.role <;>
      simp [checkPermission, hu, h]
  · intro hu
    simp [checkPermission, hu]
  · intro sA sS uA uS hA hrA hS hrS hperm
    have hlevA : roleLevelOpt uA.role = 1 := by simp [hrA, roleLevelOpt, roleHierarchy]
    have hlevS : roleLevelOpt uS.role = 2 := by simp [hrS, roleLevelOpt, roleHierarchy]
    by_cases h : roleHierarchy requiredRole ≤ roleLevelOpt uA.role
    · have h2 : roleHierarchy requiredRole ≤ roleLevelOpt uS.role := by omega
      simp [checkPermission, hS, h2]
    · simp [checkPermission, hA, h] at hperm
  · intro u r hu hr hns hna
    have hlev : roleLevelOpt u.role = 0 := by
      simp [hr, roleLevelOpt, roleHierarchy, hns, hna]
    have h : ¬ roleHierarchy ROLES.ADMIN ≤ roleLevelOpt u.role := by
      simp [ROLES.ADMIN, roleHierarchy, hlev]
    simp [checkPermission, hu, h]

/-- C9 witness: a user with the unrecognized role "USER" fails the
ADMIN-level check with the insufficient-permission message. -/
theorem c9_witness :
    (checkPermission { user := some { role := some "USER" } } ROLES.ADMIN).hasPermission
        = false ∧
      (checkPermission { user := some { role := some "USER" } } ROLES.ADMIN).message =
        some "權限不足，此操作需要更高權限" :=
  (c9_checkPermission { user := some { role := some "USER" } } ROLES.ADMIN).2.2.2
    { role := some "USER" } "USER" rfl rfl (by decide) (by decide)

/-- A stored proxy user whose `departmentId` is the (non-null) number 0: JS
truthiness makes `user.departmentId` falsy, so `getAuthHeader` does not attach
the proxy header. -/
def proxyUserDeptZero : StoredUser :=
  { id := some 1, username := some "root", role := some "ADMIN",
    departmentId := some 0, isSuperAdminProxy := some true }

/-- Storage holding `proxyUserDeptZero`. -/
def storeDeptZero : LocalStorage :=
  { token := some "tok", user := some proxyUserDeptZero }

/-- C3 counterexample: the stored user has `isSuperAdminProxy` true and a
non-null `departmentId` (the number 0), yet the `X-Proxy-Department-Id` header
is not attached, because the code tests JS truthiness of `departmentId`
(`user.isSuperAdminProxy && user.departmentId`) and 0 is falsy. -/
theorem c3_counterexample :
    proxyUserDeptZero.isSuperAdminProxy = some true ∧
      proxyUserDeptZero.departmentId ≠ none ∧
      (getAuthHeader storeDeptZero).xProxyDepartmentId = none := by
  refine ⟨rfl, ?_, rfl⟩
  decide

/-- C3 (amended): the `X-Proxy-Department-Id` header is attached iff the
stored user object has truthy `isSuperAdminProxy` and a truthy (present and
non-zero) `departmentId`, with value `departmentId.toString()`; in every other
case the headers consist of the bearer `Authorization` entry alone. -/
theorem c3_getAuthHeader (store : LocalStorage) :
    ((getAuthHeader store).xProxyDepartmentId ≠ none ↔
      ∃ u d, store.user = some u ∧ jsTruthyBool u.isSuperAdminProxy = true ∧
        u.departmentId = some d ∧ d ≠ 0)
    ∧ (∀ u d, store.user = some u → jsTruthyBool u.isSuperAdminProxy = true →
        u.departmentId = some d → d ≠ 0 →
        (getAuthHeader store).xProxyDepartmentId = some (toString d))
    ∧ (getAuthHeader store).authorization = "Bearer " ++ store.token.getD "null" := by
  refine ⟨?_, ?_, ?_⟩
  · cases hu : store.user with
    | none =>
      simp [getAuthHeader, hu]
    | some u =>
      by_cases hp : jsTruthyBool u.isSuperAdminProxy = true
      · cases hd : u.departmentId with
        | none =>
          simp [getAuthHeader, hu, hp, hd, jsTruthyNat]
        | some d =>
          by_cases hz : d = 0
          · subst hz
            simp [getAuthHeader, hu, hp, hd, jsTruthyNat]
          · have hhdr : (getAuthHeader store).xProxyDepartmentId = some (toString d) := by
              simp [getAuthHeader, hu, hp, hd, jsTruthyNat, bne_iff_ne, hz]
            rw [hhdr]
            constructor
            · intro _
              exact ⟨u, d, rfl, hp, hd, hz⟩
            · intro _
              simp
      · have hp' : jsTruthyBool u.isSuperAdminProxy = false := by
          cases h : jsTruthyBool u.isSuperAdminProxy
          · rfl
          · exact absurd h hp
        simp [getAuthHeader, hu, hp', hp]
  · intro u d hu hp hd hz
    simp [getAuthHeader, hu, hp, hd, jsTruthyNat, bne_iff_ne, hz]
  · cases hu : store.user with
    | none => simp [getAuthHeader, hu]
    | some u =>
      simp only [getAuthHeader, hu]
      split <;> rfl

/-- A stored proxy user with department 7, for the C3 witness. -/
def proxyUserDept7 : StoredUser :=
  { id := some 1, username := some "root", role := some "ADMIN",
    departmentId := some 7, isSuperAdminProxy := some true }

/-- Storage holding `proxyUserDept7`. -/
def storeDept7 : LocalStorage :=
  { token := some "tok", user := some proxyUserDept7 }

/-- C3 witness: with proxy mode on and department 7, the header is attached
with value "7". -/
theorem c3_witness :
    (getAuthHeader storeDept7).xProxyDepartmentId = some (toString (7 : Nat)) :=
  (c3_getAuthHeader storeDept7).2.1 proxyUserDept7 7 rfl rfl rfl (by decide)

/-- C7: when the stored user's role grants less than ADMIN-level permission,
`batchUpload` returns success:false carrying the permission failure message
and never issues the HTTP upload request; when the check passes and the
server responds ok, it returns success:true with the response's taskId. The
first conjunct characterizes exactly when the gate fails (missing user,
unknown role, or insufficient level). -/
theorem c7_batchUpload (store : LocalStorage) (resp : UploadServerResponse) :
    ((checkPermission store ROLES.ADMIN).hasPermission = false ↔
      store.user = none ∨
        ∃ u, store.user = some u ∧ roleLevelOpt u.role < roleHierarchy ROLES.ADMIN)
    ∧ ((checkPermission store ROLES.ADMIN).hasPermission = false →
        batchUpload store resp =
          { result := { success := false,
                        message := (checkPermission store ROLES.ADMIN).message },
            requestIssued := false })
    ∧ ((checkPermission store ROLES.ADMIN).hasPermission = true → resp.ok = true →
        (batchUpload store resp).requestIssued = true ∧
          (batchUpload store resp).result.success = true ∧
          ((batchUpload store resp).result.data.map fun d => d.taskId) = some resp.taskId) := by
  refine ⟨?_, ?_, ?_⟩
  · cases hu : store.user with
    | none => simp [checkPermission, hu]
    | some u =>
      by_cases h : roleHierarchy ROLES.ADMIN ≤ roleLevelOpt u.role <;>
        (simp [checkPermission, hu, h]; try omega)
  · intro hperm
    simp [batchUpload, hperm]
  · intro hperm hok
    simp [batchUpload, hperm, hok]

/-- C7 witness: with no stored user, `batchUpload` fails with the 未登入
message and issues no request; with a stored ADMIN and an ok response, it
succeeds with the response's taskId. -/
theorem c7_witness :
    batchUpload ({} : LocalStorage) { ok := true, taskId := some "t1" } =
      { result := { success := false, message := some "未登入" },
        requestIssued := false } ∧
    ((batchUpload { user := some { role := some "ADMIN" } }
        { ok := true, taskId := some "t1" }).result.data.map fun d => d.taskId) =
      some (some "t1") := by
  constructor
  · exact (c7_batchUpload {} { ok := true, taskId := some "t1" }).2.1 rfl
  · exact ((c7_batchUpload { user := some { role := some "ADMIN" } }
      { ok := true, taskId := some "t1" }).2.2 rfl rfl).2.2

/-- C8: `checkDuplicates` sends exactly the candidate filenames — one per
input file, in input order, each taken from the file's `name` field — and on
an ok response returns the response's results list unchanged, or the empty
list when the response has no results field. -/
theorem c8_checkDuplicates (fileList : List CandidateFile) (resp : DupServerResponse) :
    (checkDuplicates fileList resp).sentFilenames = fileList.map (fun f => f.name)
    ∧ (checkDuplicates fileList resp).sentFilenames.length = fileList.length
    ∧ (resp.ok = true →
        (checkDuplicates fileList resp).success = true ∧
          (∀ rs, resp.results = some rs → (checkDuplicates fileList resp).data = rs) ∧
          (resp.results = none → (checkDuplicates fileList resp).data = [])) := by
  refine ⟨?_, ?_, ?_⟩
  · by_cases h : resp.ok <;> simp [checkDuplicates, h]
  · by_cases h : resp.ok <;> simp [checkDuplicates, h]
  · intro hok
    refine ⟨by simp [checkDuplicates, hok], ?_, ?_⟩
    · intro rs hrs
      simp [checkDuplicates, hok, hrs]
    · intro hrs
      simp [checkDuplicates, hok, hrs]

/-- C8 witness: two candidate files are sent as their two names in order, and
an ok response with no results field yields the empty data list. -/
theorem c8_witness :
    (checkDuplicates [{ name := "a.pdf" }, { name := "b.pdf" }] { ok := true }).sentFilenames
        = ["a.pdf", "b.pdf"] ∧
      (checkDuplicates [{ name := "a.pdf" }, { name := "b.pdf" }] { ok := true }).data = [] := by
  constructor
  · exact (c8_checkDuplicates [{ name := "a.pdf" }, { name := "b.pdf" }] { ok := true }).1
  · exact ((c8_checkDuplicates [{ name := "a.pdf" }, { name := "b.pdf" }]
      { ok := true }).2.2 rfl).2.2 rfl

/-- C4: entering impersonation preserves the underlying principal identity:
the acting user keeps the original id and username, records the impersonated
department in departmentId/departmentName, is marked `isSuperAdminProxy` with
`_originalRole` SUPER_ADMIN, and the token entry is unchanged. -/
theorem c4_enterDepartmentDashboard (store : LocalStorage) (u : StoredUser) (dept : Department)
    (hu : store.user = some u) :
    ∃ t, (enterDepartmentDashboard store dept).user = some t ∧
      t.id = u.id ∧ t.username = u.username ∧
      t.departmentId = some dept.id ∧ t.departmentName = some dept.name ∧
      t.isSuperAdminProxy = some true ∧ t.originalRole = some "SUPER_ADMIN" ∧
      (enterDepartmentDashboard store dept).token = store.token := by
  unfold enterDepartmentDashboard
  rw [hu]
  cases hs : store.superAdminUser <;>
    exact ⟨_, rfl, rfl, rfl, rfl, rfl, rfl, rfl, rfl⟩

/-- A concrete super administrator, used by the impersonation witnesses. -/
def superAdminSeed : StoredUser :=
  { id := some 9, name := some "Root", username := some "root",
    role := some "SUPER_ADMIN" }

/-- Storage holding `superAdminSeed` with no impersonation in progress. -/
def storeSeed : LocalStorage :=
  { token := some "tok", user := some superAdminSeed, isAuthenticated := some "true" }

/-- A concrete department, used by the impersonation witnesses. -/
def deptSeed : Department := { id := 3, name := "財務處" }

/-- A second concrete department, used by the C5 witness. -/
def deptSeed2 : Department := { id := 4, name := "人事處" }

/-- C4 witness: entering department 3 from `storeSeed` produces the expected
acting identity and leaves the token unchanged. -/
theorem c4_witness :
    ∃ t, (enterDepartmentDashboard storeSeed deptSeed).user = some t ∧
      t.id = superAdminSeed.id ∧ t.username = superAdminSeed.username ∧
      t.departmentId = some deptSeed.id ∧ t.departmentName = some deptSeed.name ∧
      t.isSuperAdminProxy = some true ∧ t.originalRole = some "SUPER_ADMIN" ∧
      (enterDepartmentDashboard storeSeed deptSeed).token = storeSeed.token :=
  c4_enterDepartmentDashboard storeSeed superAdminSeed deptSeed rfl

/-- `enterDepartmentDashboard` never replaces an already-saved super-admin
snapshot. -/
theorem enterDashboard_superAdmin_preserved (store : LocalStorage) (dept : Department)
    (s : StoredUser) (h : store.superAdminUser = some s) :
    (enterDepartmentDashboard store dept).superAdminUser = some s := by
  simp [enterDepartmentDashboard, h]

/-- Iterated entries keep the saved super-admin snapshot. -/
theorem enterMany_superAdmin_preserved (ds : List Department) (store : LocalStorage)
    (s : StoredUser) (h : store.superAdminUser = some s) :
    (enterDepartmentDashboardMany store ds).superAdminUser = some s := by
  induction ds generalizing store with
  | nil => exact h
  | cons d ds ih =>
    exact ih _ (enterDashboard_superAdmin_preserved store d s h)

/-- C5: from a clean state (no saved snapshot), entering impersonation any
positive number of times and then leaving restores a stored user with the
original id, name, username and role SUPER_ADMIN, containing no departmentId
or departmentName, and clears the saved superAdminUser entry. -/
theorem c5_roundTrip (store : LocalStorage) (u : StoredUser) (d : Department)
    (ds : List Department) (hu : store.user = some u)
    (hrole : u.role = some "SUPER_ADMIN") (hs : store.superAdminUser = none) :
    ∃ r, (returnToSuperAdmin (enterDepartmentDashboardMany store (d :: ds))).user = some r ∧
      r.id = u.id ∧ r.name = u.name ∧ r.username = u.username ∧
      r.role = some "SUPER_ADMIN" ∧ r.departmentId = none ∧ r.departmentName = none ∧
      (returnToSuperAdmin (enterDepartmentDashboardMany store (d :: ds))).superAdminUser
        = none := by
  have h1 : (enterDepartmentDashboard store d).superAdminUser =
      some ({ id := u.id, name := u.name, username := u.username,
              role := some "SUPER_ADMIN" } : StoredUser) := by
    simp [enterDepartmentDashboard, hs, hu]
  have h2 := enterMany_superAdmin_preserved ds _ _ h1
  have h3 : enterDepartmentDashboardMany store (d :: ds) =
      enterDepartmentDashboardMany (enterDepartmentDashboard store d) ds := rfl
  refine ⟨{ id := u.id, name := u.name, username := u.username,
            role := some "SUPER_ADMIN" }, ?_, rfl, rfl, rfl, rfl, rfl, rfl, ?_⟩ <;>
    rw [h3] <;> simp [returnToSuperAdmin, h2]

/-- C5 witness: entering two departments in a row and returning restores the
original super administrator and clears the snapshot. -/
theorem c5_witness :
    ∃ r, (returnToSuperAdmin
        (enterDepartmentDashboardMany storeSeed [deptSeed, deptSeed2])).user = some r ∧
      r.id = superAdminSeed.id ∧ r.name = superAdminSeed.name ∧
      r.username = superAdminSeed.username ∧
      r.role = some "SUPER_ADMIN" ∧ r.departmentId = none ∧ r.departmentName = none ∧
      (returnToSuperAdmin
        (enterDepartmentDashboardMany storeSeed [deptSeed, deptSeed2])).superAdminUser
        = none :=
  c5_roundTrip storeSeed superAdminSeed deptSeed [deptSeed2] rfl rfl rfl

/-- The user-deletion loop only ever emits `deleteUser` events, never the
department DELETE. -/
theorem deleteUsersLoop_no_delDept (res : Nat → ApiResult) (us : List DeptUser) :
    DelEvent.delDept ∉ (deleteUsersLoop res us).2 := by
  induction us with
  | nil => simp [deleteUsersLoop]
  | cons u us ih =>
    by_cases h : (res u.id).success <;> simp [deleteUsersLoop, h, ih]

/-- When every listed user's deletion succeeds, the loop reports no failure
and emits one `deleteUser` event per user, in list order. -/
theorem deleteUsersLoop_all_ok (res : Nat → ApiResult) (us : List DeptUser)
    (h : ∀ u ∈ us, (res u.id).success = true) :
    deleteUsersLoop res us = (none, us.map fun u => DelEvent.delUser u.id) := by
  induction us with
  | nil => rfl
  | cons u us ih =>
    have hu := h u (List.mem_cons_self u us)
    have hrest := ih fun v hv => h v (List.mem_cons_of_mem u hv)
    simp [deleteUsersLoop, hu, hrest]

/-- When some listed user's deletion fails, the loop reports a failure. -/
theorem deleteUsersLoop_fail (res : Nat → ApiResult) (us : List DeptUser)
    (h : ∃ u ∈ us, (res u.id).success = false) :
    (deleteUsersLoop res us).1.isSome = true := by
  induction us with
  | nil => simp at h
  | cons u us ih =>
    by_cases hu : (res u.id).success
    · obtain ⟨v, hv, hvf⟩ := h
      rcases List.mem_cons.mp hv with rfl | hv2
      · rw [hu] at hvf; cases hvf
      · have hrec := ih ⟨v, hv2, hvf⟩
        simpa [deleteUsersLoop, hu] using hrec
    · simp [deleteUsersLoop, hu]

/-- C6 (amended): provided the `getUsersByDepartment` listing succeeds and the
SUPER_ADMIN gate passes, all listed users are deleted (each via `deleteUser`,
in list order) before the department DELETE is issued; and if any user
deletion fails, the call returns failure without ever issuing the department
DELETE. (When the listing itself fails the code issues the department DELETE
directly; see the counterexample.) -/
theorem c6_deleteDepartment (store : LocalStorage) (env : DeleteEnv)
    (hf : env.fetchOk = true)
    (hp : (checkPermission store ROLES.SUPER_ADMIN).hasPermission = true) :
    ((∀ u ∈ env.deptUsers, (env.deleteUserRes u.id).success = true) →
      (deleteDepartment store env).2 =
        (env.deptUsers.map fun u => DelEvent.delUser u.id) ++ [DelEvent.delDept])
    ∧ ((∃ u ∈ env.deptUsers, (env.deleteUserRes u.id).success = false) →
        (deleteDepartment store env).1.success = false ∧
          DelEvent.delDept ∉ (deleteDepartment store env).2) := by
  have hperm : (!(checkPermission store ROLES.SUPER_ADMIN).hasPermission) = false := by
    rw [hp]; rfl
  constructor
  · intro hall
    have hloop := deleteUsersLoop_all_ok env.deleteUserRes env.deptUsers hall
    cases henv : env.deptUsers with
    | nil =>
      simp [deleteDepartment, hperm, hf, henv, deleteUsersLoop]
      by_cases hd : env.deptDeleteOk <;> simp [hd]
    | cons u us =>
      rw [henv] at hloop
      simp only [deleteDepartment, hperm, Bool.false_eq_true, if_false, hf, if_true, henv,
        List.length_cons, gt_iff_lt, Nat.succ_pos, hloop]
      by_cases hd : env.deptDeleteOk <;> simp [hd]
  · intro hex
    have hfail := deleteUsersLoop_fail env.deleteUserRes env.deptUsers hex
    have hne : env.deptUsers ≠ [] := by
      intro hnil
      rw [hnil] at hex
      simp at hex
    cases henv : env.deptUsers with
    | nil => exact absurd henv hne
    | cons u us =>
      rw [henv] at hfail
      rcases hloop : deleteUsersLoop env.deleteUserRes (u :: us) with ⟨fail, evs⟩
      cases fail with
      | none => rw [hloop] at hfail; simp at hfail
      | some f =>
        have hnodd := deleteUsersLoop_no_delDept env.deleteUserRes (u :: us)
        rw [hloop] at hnodd
        constructor <;>
          simp [deleteDepartment, hperm, hf, henv, hloop, hnodd]

/-- Storage holding a SUPER_ADMIN user, for the `deleteDepartment` runs. -/
def storeSuperOnly : LocalStorage := { user := some { role := some "SUPER_ADMIN" } }

/-- Environment of a `deleteDepartment` call in which the department has one
user but the `getUsersByDepartment` call fails. -/
def envFetchFail : DeleteEnv :=
  { deptUsers := [{ id := 1, name := "alice" }], fetchOk := false,
    deleteUserRes := fun _ => { success := true }, deptDeleteOk := true }

/-- C6 counterexample: when the `getUsersByDepartment` call fails for a
department that does have a user, `deleteDepartment` issues the department
DELETE without issuing any `deleteUser` call and reports success — so the
department's users are not all deleted before the department DELETE. -/
theorem c6_counterexample :
    envFetchFail.deptUsers = [{ id := 1, name := "alice" }] ∧
      (deleteDepartment storeSuperOnly envFetchFail).2 = [DelEvent.delDept] ∧
      DelEvent.delUser 1 ∉ (deleteDepartment storeSuperOnly envFetchFail).2 ∧
      (deleteDepartment storeSuperOnly envFetchFail).1.success = true := by
  refine ⟨rfl, rfl, ?_, rfl⟩
  decide

/-- Environment of a successful `deleteDepartment` call: two users, all
deletions succeed. -/
def envAllOk : DeleteEnv :=
  { deptUsers := [{ id := 1, name := "alice" }, { id := 2, name := "bob" }],
    fetchOk := true, deleteUserRes := fun _ => { success := true },
    deptDeleteOk := true }

/-- C6 witness: with a successful listing of two users and successful user
deletions, the two `deleteUser` events precede the department DELETE. -/
theorem c6_witness :
    (deleteDepartment storeSuperOnly envAllOk).2 =
      [DelEvent.delUser 1, DelEvent.delUser 2, DelEvent.delDept] := by
  have h := (c6_deleteDepartment storeSuperOnly envAllOk rfl rfl).1 (by decide)
  simpa using h

/-- A header lookup misses exactly when no entry carries the key. -/
theorem headerLookup_eq_none_iff (hs : List (String × String)) (k : String) :
    headerLookup hs k = none ↔ ∀ p ∈ hs, p.1 ≠ k := by
  unfold headerLookup
  rw [Option.map_eq_none', List.find?_eq_none]
  constructor
  · intro h p hp
    simpa using h p hp
  · intro h p hp
    simpa using h p hp

/-- Header lookup distributes over append, preferring the first list. -/
theorem headerLookup_append (l₁ l₂ : List (String × String)) (k : String) :
    headerLookup (l₁ ++ l₂) k = (headerLookup l₁ k).or (headerLookup l₂ k) := by
  unfold headerLookup
  rw [List.find?_append]
  cases l₁.find? fun p => p.1 == k <;> simp

/-- Merged request headers look up to the caller's entry when present and to
the no-cache default otherwise. -/
theorem headerLookup_mergeNoCacheHeaders (callerHeaders : List (String × String)) (k : String) :
    headerLookup (mergeNoCacheHeaders callerHeaders) k =
      (headerLookup callerHeaders k).or
        (headerLookup [("Pragma", "no-cache"), ("Cache-Control", "no-cache")] k) := by
  rw [mergeNoCacheHeaders, headerLookup_append]
  rcases hK : headerLookup callerHeaders k with _ | v
  · have hKf : callerHeaders.find? (fun p => p.1 == k) = none := by
      have h2 := hK
      unfold headerLookup at h2
      exact Option.map_eq_none'.mp h2
    by_cases hkP : ("Pragma" : String) = k
    · subst hkP
      by_cases hCC : (callerHeaders.find? fun p => p.1 == "Cache-Control").isNone <;>
        simp [headerLookup, List.filter_cons, hKf, hCC]
    · by_cases hkC : ("Cache-Control" : String) = k
      · subst hkC
        by_cases hPP : (callerHeaders.find? fun p => p.1 == "Pragma").isNone <;>
          simp [headerLookup, List.filter_cons, hKf, hPP, hkP]
      · by_cases hPP : (callerHeaders.find? fun p => p.1 == "Pragma").isNone <;>
          by_cases hCC : (callerHeaders.find? fun p => p.1 == "Cache-Control").isNone <;>
          simp [headerLookup, List.filter_cons, hPP, hCC, beq_iff_eq, hkP, hkC, hKf]
  · have hnone : headerLookup
        (([("Pragma", "no-cache"), ("Cache-Control", "no-cache")]).filter
          (fun p => (headerLookup callerHeaders p.1).isNone)) k = none := by
      rw [headerLookup_eq_none_iff]
      intro p hp hpk
      have hkeep := (List.mem_filter.mp hp).2
      rw [hpk, hK] at hkeep
      simp at hkeep
    rw [hnone]
    simp

/-- C10: a 401 response makes `apiFetch` clear every stored credential
(token, user, isAuthenticated, superAdminUser) and throw, so no caller ever
receives a 401 response object; any other status is returned unchanged with
the storage untouched; the no-store cache default and the no-cache headers
are applied only where the caller did not specify its own. -/
theorem c10_apiFetch (store : LocalStorage) (options : FetchOptions) (resp : HttpResponse) :
    (resp.status = 401 →
      (apiFetch store options resp).store = ({} : LocalStorage) ∧
        ∃ e, (apiFetch store options resp).result = Except.error e)
    ∧ (resp.status ≠ 401 →
        (apiFetch store options resp).result = Except.ok resp ∧
          (apiFetch store options resp).store = store)
    ∧ (options.cache = none → (apiFetch store options resp).request.cache = some "no-store")
    ∧ (∀ c, options.cache = some c → (apiFetch store options resp).request.cache = some c)
    ∧ (∀ k, headerLookup (apiFetch store options resp).request.headers k =
        (headerLookup options.headers k).or
          (headerLookup [("Pragma", "no-cache"), ("Cache-Control", "no-cache")] k)) := by
  have hreq : (apiFetch store options resp).request =
      { cache := match options.cache with | none => some "no-store" | some c => some c,
        headers := mergeNoCacheHeaders options.headers } := by
    unfold apiFetch
    by_cases h : resp.status = 401 <;> simp [h]
  refine ⟨?_, ?_, ?_, ?_, ?_⟩
  · intro h
    constructor
    · simp [apiFetch, handleTokenExpired, h]
    · exact ⟨"登入已過期，請重新登入", by simp [apiFetch, h]⟩
  · intro h
    constructor <;> simp [apiFetch, h]
  · intro h
    rw [hreq]
    simp [h]
  · intro c h
    rw [hreq]
    simp [h]
  · intro k
    rw [hreq]
    exact headerLookup_mergeNoCacheHeaders options.headers k

/-- A logged-in storage with every credential entry set, for the C10
witness. -/
def storeLoggedIn : LocalStorage :=
  { token := some "tok", user := some { role := some "ADMIN" },
    isAuthenticated := some "true",
    superAdminUser := some { role := some "SUPER_ADMIN" } }

/-- C10 witness: a 401 response clears all four credential entries and
produces a thrown error instead of a response. -/
theorem c10_witness :
    (apiFetch storeLoggedIn {} { status := 401 }).store = ({} : LocalStorage) ∧
      ∃ e, (apiFetch storeLoggedIn {} { status := 401 }).result = Except.error e :=
  (c10_apiFetch storeLoggedIn {} { status := 401 }).1 rfl

end RagWeb
